import Mathlib

/- Verification development for the DevDestroyer certificate-stream monitor.

   The definitions below are a shallow embedding of the JavaScript source:
   - `splitDots`, `extractSubnet`           ←  research_mode.js  ResearchMode.extractSubnet
     (JS `String.prototype.split('.')` is embedded as `splitDots` on char lists)
   - `isIPWatched`, `performDeepDNAMatch`, `processDomains`,
     `extractDomainsFromCert`, `handleCertificateMessage`, `connStep`
                                            ←  the CertStream real-time listener
   - `fingerprintSite` and the tier outcomes ←  cabal_scraper.js CabalScraper
   - `profileSeedURLs`, `profileURL`, `mergeDeepDNA` ←  research_mode.js ResearchMode
   External effects (DNS, the network fetch done by each extraction tier, timers)
   are passed in as explicit oracles / event traces, so every definition is
   executable and every branch mirrors a branch of the source. -/

namespace DevDestroyer

/-- Embedding of JS `str.split('.')` on the character list of the string:
    splitting on the dot character, keeping empty chunks, as
    `"a.b".split('.') = ["a","b"]` and `"".split('.') = [""]`. -/
def splitDots : List Char → List (List Char)
  | [] => [[]]
  | c :: rest =>
    if c = '.' then [] :: splitDots rest
    else
      match splitDots rest with
      | [] => [[c]]
      | r :: rs => (c :: r) :: rs

/-- The characters of the literal suffix ".0/24" appended by `extractSubnet`. -/
def subnetSuffix : List Char := ['.', '0', '/', '2', '4']

/-- ResearchMode.extractSubnet (research_mode.js lines 124-128): split the IP
    on dots; if there are not exactly four parts return null, otherwise return
    the string `parts[0].parts[1].parts[2].0/24`. -/
def extractSubnetChars (ip : List Char) : Option (List Char) :=
  match splitDots ip with
  | [a, b, c, _d] => some (a ++ '.' :: (b ++ '.' :: (c ++ subnetSuffix)))
  | _ => none

/-- String-level wrapper of `extractSubnetChars`. -/
def extractSubnet (ip : String) : Option String :=
  (extractSubnetChars ip.toList).map String.mk

/-- Bool test that `pre` is an initial segment of `s` — embedding of
    JS `s.startsWith(pre)` on character lists. -/
def listStartsWith : List Char → List Char → Bool
  | _, [] => true
  | [], _ :: _ => false
  | c :: cs, p :: ps => c == p && listStartsWith cs ps

/-- String-level wrapper of `listStartsWith`: `strStartsWith s pre` is
    JS `s.startsWith(pre)`. -/
def strStartsWith (s pre : String) : Bool :=
  listStartsWith s.toList pre.toList

/-- Match types of alerts produced by the listener. -/
inductive MatchType where
  | IP_MATCH
  | SSL_ISSUER_MATCH
  | PATTERN_MATCH
deriving DecidableEq, Repr

/-- Confidence levels of alerts produced by the listener. -/
inductive Confidence where
  | CRITICAL
  | MEDIUM
deriving DecidableEq, Repr

/-- The listener's watchlist as read by `isIPWatched`: lists of watched IPs and
    of watched /24 subnet strings (the fingerprint records of the persisted
    watchlist are not consulted by the listener's matching code). -/
structure Watchlist where
  ips : List String
  subnets : List String
deriving DecidableEq, Repr

/-- The `deep_dna` part of the profile consulted by `performDeepDNAMatch`. -/
structure DeepDNA where
  ssl_issuers : List String
  css_variables : List String
  script_hashes : List String
deriving DecidableEq, Repr

/-- The profile loaded into the listener; `profile.deep_dna` missing in the
    source folds into the listener's `profile` being `none`. -/
structure Profile where
  deep_dna : DeepDNA
deriving DecidableEq, Repr

/-- The issuer object of a leaf certificate; `O` is the organization field,
    which may be absent. -/
structure Issuer where
  O : Option String
deriving DecidableEq, Repr

/-- The `leaf_cert` object of a CertStream `certificate_update` message:
    subject common name, subject alternative names, `all_domains`, the issuer,
    and validity timestamps. Absent object fields are `none` / `[]`. -/
structure LeafCert where
  subject_CN : Option String
  subjectAltName : List String
  all_domains : List String
  issuer : Option Issuer
  not_before : Option Int
  not_after : Option Int
deriving DecidableEq, Repr

/-- The `data` object of a certificate message; `leaf_cert` may be absent. -/
structure CertData where
  leaf_cert : Option LeafCert
deriving DecidableEq, Repr

/-- An alert record as built by `processDomains` (the timestamp string and the
    free-text detail fields are omitted; they are never read back). -/
structure Alert where
  domain : String
  ip : Option String
  issuer : Option String
  notBefore : Option Int
  notAfter : Option Int
  matchType : MatchType
  confidence : Confidence
deriving DecidableEq, Repr

/-- Immutable configuration of the listener: the loaded watchlist and profile,
    the configured naming-pattern heuristics (regex tests embedded as Bool
    predicates on the domain), and DNS resolution as an oracle returning the
    first resolved IPv4 address or `none` on failure. -/
structure ListenerConfig where
  watchlist : Option Watchlist
  profile : Option Profile
  patterns : List (String → Bool)
  resolve : String → Option String

/-- Mutable listener state touched by domain processing: the seen-set
    `knownCabalDomains` (a JS Set, embedded as a duplicate-free insertion-order
    list) and the detection counter. -/
structure ListenerState where
  knownCabalDomains : List String
  detectedCount : Nat
deriving DecidableEq, Repr

/-- JS `Set.add` / push-if-absent used for `knownCabalDomains` and for the
    research-mode array merges. -/
def pushNew (l : List String) (x : String) : List String :=
  if l.contains x then l else l ++ [x]

/-- CertStreamRealTimeListener.isIPWatched: direct membership in
    `watchlist.ips`, else rebuild the /24 subnet string from the first three
    octets and test membership in `watchlist.subnets`. -/
def isIPWatched (cfg : ListenerConfig) (ip : String) : Bool :=
  match cfg.watchlist with
  | none => false
  | some w =>
    if w.ips.contains ip then true
    else
      match splitDots ip.toList with
      | [a, b, c, _d] => w.subnets.contains (String.mk (a ++ '.' :: (b ++ '.' :: (c ++ subnetSuffix))))
      | _ => false

/-- The issuer organization as read by `performDeepDNAMatch`:
    `certData?.leaf_cert?.issuer?.O || null` (an empty string is falsy and
    collapses to null). -/
def issuerOf (cert : CertData) : Option String :=
  match cert.leaf_cert with
  | none => none
  | some lc =>
    match lc.issuer with
    | none => none
    | some i =>
      match i.O with
      | none => none
      | some o => if o == ("") then none else some o

/-- CertStreamRealTimeListener.performDeepDNAMatch: no profile → null; SSL
    issuer membership in `deep_dna.ssl_issuers` → SSL_ISSUER_MATCH/MEDIUM;
    otherwise a naming-pattern hit → PATTERN_MATCH/MEDIUM; else null. -/
def performDeepDNAMatch (cfg : ListenerConfig) (domain : String) (cert : CertData) :
    Option (MatchType × Confidence) :=
  match cfg.profile with
  | none => none
  | some p =>
    match issuerOf cert with
    | some o =>
      if p.deep_dna.ssl_issuers.contains o then some (.SSL_ISSUER_MATCH, .MEDIUM)
      else if cfg.patterns.any (fun f => f domain) then some (.PATTERN_MATCH, .MEDIUM)
      else none
    | none =>
      if cfg.patterns.any (fun f => f domain) then some (.PATTERN_MATCH, .MEDIUM)
      else none

/-- The issuer field written into an alert:
    `certData.leaf_cert && certData.leaf_cert.issuer ? certData.leaf_cert.issuer.O : 'Unknown'`. -/
def alertIssuer (cert : CertData) : Option String :=
  match cert.leaf_cert with
  | none => some ("Unknown")
  | some lc =>
    match lc.issuer with
    | none => some ("Unknown")
    | some i => i.O

/-- The not_before field written into an alert. -/
def alertNotBefore (cert : CertData) : Option Int :=
  match cert.leaf_cert with
  | none => none
  | some lc => lc.not_before

/-- The not_after field written into an alert. -/
def alertNotAfter (cert : CertData) : Option Int :=
  match cert.leaf_cert with
  | none => none
  | some lc => lc.not_after

/-- Builds the alert record shared by the three alert-producing branches of
    `processDomains`. -/
def mkAlert (domain : String) (ip : Option String) (cert : CertData)
    (mt : MatchType) (conf : Confidence) : Alert :=
  ⟨domain, ip, alertIssuer cert, alertNotBefore cert, alertNotAfter cert, mt, conf⟩

/-- The body of the `processDomains` loop for one domain. Returns the alerts
    emitted for this domain, the list of domains for which DNS resolution was
    attempted, and the updated state. Mirrors part_004 lines 671-752:
    wildcard/empty filter, pattern test, DNS resolve, watched-IP test, then the
    IP branch / deep-DNA branch / pattern-fallback branch. -/
def processDomain (cfg : ListenerConfig) (st : ListenerState) (cert : CertData)
    (domain : String) : List Alert × List String × ListenerState :=
  if strStartsWith domain ("*.") || domain == ("") then ([], [], st)
  else
    let matchesPattern := cfg.patterns.any (fun f => f domain)
    let resolvedIP := cfg.resolve domain
    let isWatchedIP := match resolvedIP with
      | some ip => isIPWatched cfg ip
      | none => false
    if isWatchedIP then
      ([mkAlert domain resolvedIP cert .IP_MATCH .CRITICAL], [domain],
       ⟨pushNew st.knownCabalDomains domain, st.detectedCount + 1⟩)
    else if matchesPattern && !(st.knownCabalDomains.contains domain) then
      match performDeepDNAMatch cfg domain cert with
      | some (mt, conf) =>
        ([mkAlert domain resolvedIP cert mt conf], [domain],
         ⟨pushNew st.knownCabalDomains domain, st.detectedCount + 1⟩)
      | none =>
        ([mkAlert domain resolvedIP cert .PATTERN_MATCH .MEDIUM], [domain],
         ⟨pushNew st.knownCabalDomains domain, st.detectedCount + 1⟩)
    else ([], [], st)

/-- CertStreamRealTimeListener.processDomains: sequential loop of
    `processDomain` over the extracted domains, threading the state and
    concatenating the emitted alerts and resolution attempts in order. -/
def processDomains (cfg : ListenerConfig) (cert : CertData) :
    ListenerState → List String → List Alert × List String × ListenerState
  | st, [] => ([], [], st)
  | st, d :: rest =>
    let r1 := processDomain cfg st cert d
    let r2 := processDomains cfg cert r1.2.2 rest
    (r1.1 ++ r2.1, r1.2.1 ++ r2.2.1, r2.2.2)

/-- CertStreamRealTimeListener.extractDomainsFromCert: union of subject CN,
    subjectAltName entries and `all_domains`, deduplicated in insertion order
    (JS Set then Array.from). -/
def extractDomainsFromCert (lc : LeafCert) : List String :=
  let ds : List String := []
  let ds := match lc.subject_CN with
    | some cn => pushNew ds cn
    | none => ds
  let ds := lc.subjectAltName.foldl pushNew ds
  lc.all_domains.foldl pushNew ds

/-- An inbound stream event as seen by the message handler after JSON parsing:
    a heartbeat message, a certificate update (whose `data` may be absent), a
    message of some other type, or unparseable input (JSON.parse throws). -/
inductive StreamMessage where
  | heartbeat
  | certificateUpdate (data : Option CertData)
  | otherType
  | malformed
deriving DecidableEq, Repr

/-- Listener state visible to the message handler and the heartbeat machinery:
    the message counter, the domain-processing state, and the `isAlive`
    liveness flag owned by the `connect(maxRetries)` closure. -/
structure FullState where
  messageCount : Nat
  listener : ListenerState
  isAlive : Bool
deriving DecidableEq, Repr

/-- CertStreamRealTimeListener.handleCertificateMessage: malformed input is
    caught (no state change); any parsed message bumps the counter; only
    `certificate_update` messages with a `leaf_cert` go through domain
    extraction and `processDomains`. Returns the updated state, the emitted
    alerts, and the domains for which DNS resolution was attempted. -/
def handleCertificateMessage (cfg : ListenerConfig) (s : FullState) :
    StreamMessage → FullState × List Alert × List String
  | .malformed => (s, [], [])
  | .heartbeat => ({ s with messageCount := s.messageCount + 1 }, [], [])
  | .otherType => ({ s with messageCount := s.messageCount + 1 }, [], [])
  | .certificateUpdate data =>
    let s1 : FullState := { s with messageCount := s.messageCount + 1 }
    match data with
    | none => (s1, [], [])
    | some cd =>
      match cd.leaf_cert with
      | none => (s1, [], [])
      | some lc =>
        let r := processDomains cfg cd s1.listener (extractDomainsFromCert lc)
        ({ s1 with listener := r.2.2 }, r.1, r.2.1)

/-- The `ws.on('pong')` handler installed by `connect(maxRetries)`: set the
    liveness flag. -/
def handlePong (s : FullState) : FullState := { s with isAlive := true }

/-- Connection-lifecycle state of `connect(maxRetries)` (part_004 lines
    833-931): the `isConnected` field of the listener plus the closure
    variables `isAlive`, `retryCount` and `retryDelay`. -/
structure ConnState where
  isConnected : Bool
  isAlive : Bool
  retryCount : Nat
  retryDelay : Nat
deriving DecidableEq, Repr

/-- State at entry to `connect(maxRetries)`: not yet connected,
    `isAlive = true`, `retryCount = 0`, `retryDelay = 1000` ms. -/
def initConnState : ConnState := ⟨false, true, 0, 1000⟩

/-- Transport events driving the `connect(maxRetries)` lifecycle. -/
inductive ConnEvent where
  | openEvt
  | closeEvt
  | pongEvt
deriving DecidableEq, Repr

/-- One transport event of `connect(maxRetries)`. `openEvt` is the `open`
    handler (connected, alive, counters reset); `pongEvt` sets the liveness
    flag; `closeEvt` is the `close` handler: if retries remain, a reconnect is
    scheduled after the current `retryDelay` (returned as the second
    component) and — when that timer fires, before the next attempt —
    `retryDelay` is doubled and capped at 30000 ms; otherwise nothing further
    is scheduled. -/
def connStep (maxRetries : Nat) (s : ConnState) : ConnEvent → ConnState × Option Nat
  | .openEvt =>
    ({ s with isConnected := true, isAlive := true, retryCount := 0, retryDelay := 1000 }, none)
  | .pongEvt => ({ s with isAlive := true }, none)
  | .closeEvt =>
    if s.retryCount < maxRetries then
      ({ s with isConnected := false, isAlive := false,
                retryCount := s.retryCount + 1,
                retryDelay := min (s.retryDelay * 2) 30000 }, some s.retryDelay)
    else
      ({ s with isConnected := false, isAlive := false }, none)

/-- Folds `connStep` over a trace of transport events, accumulating the
    scheduled reconnect delays in order. -/
def connRun (maxRetries : Nat) : ConnState × List Nat → List ConnEvent → ConnState × List Nat
  | acc, [] => acc
  | (s, ds), e :: es =>
    let r := connStep maxRetries s e
    connRun maxRetries (r.1, ds ++ r.2.toList) es

/-- The structural fields every extraction layer of cabal_scraper.js returns
    on success (CSS variables are represented by their names). -/
structure TierPayload where
  dom_hash : Option String
  css_vars : List String
  elementor_data_ids : List String
  common_class_names : List String
  script_hashes : List String
  uses_wp_uploads : Bool
  uses_tinybird : Bool
deriving DecidableEq, Repr

/-- A successful layer result: the payload plus the `extracted_via` tag the
    layer stamps on it. -/
structure TierResult where
  payload : TierPayload
  extracted_via : String
deriving DecidableEq, Repr

/-- Outcome of CabalScraper.extractUsingHTMLParser given the network outcome
    of the fetch+parse (`none` = any failure): success is tagged
    AXIOS_CHEERIO. -/
def tier1Outcome (o : Option TierPayload) : Option TierResult :=
  o.map (fun p => ⟨p, "AXIOS_CHEERIO"⟩)

/-- Outcome of CabalScraper.extractUsingRemoteBrowser: with no configured
    remote endpoint it fails immediately; otherwise success is tagged
    PLAYWRIGHT_REMOTE. -/
def tier2Outcome (endpoint : Option String) (o : Option TierPayload) : Option TierResult :=
  match endpoint with
  | none => none
  | some _ => o.map (fun p => ⟨p, "PLAYWRIGHT_REMOTE"⟩)

/-- Outcome of CabalScraper.extractUsingLocalBrowser: success is tagged
    PLAYWRIGHT_LOCAL. -/
def tier3Outcome (o : Option TierPayload) : Option TierResult :=
  o.map (fun p => ⟨p, "PLAYWRIGHT_LOCAL"⟩)

/-- SSL certificate facts gathered by extractSSLFingerprint (network-level,
    independent of the extraction layers). -/
structure SSLInfo where
  issuerOrg : String
  issuerCN : String
deriving DecidableEq, Repr

/-- The fingerprint record assembled by CabalScraper.fingerprintSite. -/
structure Fingerprint where
  url : String
  ssl : Option SSLInfo
  ip : String
  domain : String
  dom_hash : Option String
  css_vars : List String
  elementor_data_ids : List String
  common_class_names : List String
  script_hashes : List String
  uses_wp_uploads : Bool
  uses_tinybird : Bool
  extracted_via : String
deriving DecidableEq, Repr

/-- CabalScraper.fingerprintSite (cabal_scraper.js lines 380-452): SSL info
    and DNS IP are always gathered; the three extraction layers are tried in
    the fixed order tier 1, tier 2, tier 3, stopping at the first success;
    on total failure the structural fields are emptied and `extracted_via` is
    DNS_SSL_ONLY. The second component records which layers the loop invoked. -/
def fingerprintSite (url hostname ip : String) (ssl : Option SSLInfo)
    (t1 t2 t3 : Option TierResult) : Fingerprint × List Nat :=
  let picked : Option TierResult × List Nat :=
    match t1 with
    | some r => (some r, [1])
    | none =>
      match t2 with
      | some r => (some r, [1, 2])
      | none =>
        match t3 with
        | some r => (some r, [1, 2, 3])
        | none => (none, [1, 2, 3])
  match picked with
  | (some r, invoked) =>
    ({ url := url, ssl := ssl, ip := ip, domain := hostname,
       dom_hash := r.payload.dom_hash,
       css_vars := r.payload.css_vars,
       elementor_data_ids := r.payload.elementor_data_ids,
       common_class_names := r.payload.common_class_names,
       script_hashes := r.payload.script_hashes,
       uses_wp_uploads := r.payload.uses_wp_uploads,
       uses_tinybird := r.payload.uses_tinybird,
       extracted_via := r.extracted_via }, invoked)
  | (none, invoked) =>
    ({ url := url, ssl := ssl, ip := ip, domain := hostname,
       dom_hash := none, css_vars := [], elementor_data_ids := [],
       common_class_names := [], script_hashes := [],
       uses_wp_uploads := false, uses_tinybird := false,
       extracted_via := "DNS_SSL_ONLY" }, invoked)

/-- The normalized DNA entry built by ResearchMode.profileURL from a
    successful fingerprint. -/
structure DnaEntry where
  url : String
  ip : Option String
  subnet : Option String
  dom_hash : Option String
  css_vars : List String
  script_hashes : List String
  ssl_issuer : Option String
  elementor_data_ids : List String
  common_class_names : List String
  uses_tinybird : Bool
deriving DecidableEq, Repr

/-- The persisted research watchlist: IPs, subnets and appended fingerprint
    entries. -/
structure RWatchlist where
  ips : List String
  subnets : List String
  fingerprints : List DnaEntry
deriving DecidableEq, Repr

/-- The `deep_dna` section of the persisted research profile. -/
structure RDeepDNA where
  ssl_issuers : List String
  css_variables : List String
  script_hashes : List String
  dom_hashes : List String
  elementor_data_ids : List String
  common_class_names : List String
  tracking_scripts : List String
deriving DecidableEq, Repr

/-- The persisted research profile: seed URLs, infrastructure lists and the
    deep-DNA aggregate. -/
structure RProfile where
  seed_urls : List String
  infra_ips : List String
  infra_subnets : List String
  deep_dna : RDeepDNA
deriving DecidableEq, Repr

/-- ResearchMode state: the watchlist, the profile and the processed-URL
    ledger (`researchedURLs`). -/
structure ResearchState where
  watchlist : RWatchlist
  profile : RProfile
  researchedURLs : List String
deriving DecidableEq, Repr

/-- The deep-DNA merging done inside ResearchMode.profileURL: each field of
    the entry is unioned (push-if-absent) into the aggregate profile. -/
def mergeDeepDNA (p : RProfile) (e : DnaEntry) : RProfile :=
  let d := p.deep_dna
  let d := match e.ssl_issuer with
    | some o => { d with ssl_issuers := pushNew d.ssl_issuers o }
    | none => d
  let d := { d with css_variables := e.css_vars.foldl pushNew d.css_variables }
  let d := { d with script_hashes := e.script_hashes.foldl pushNew d.script_hashes }
  let d := match e.dom_hash with
    | some h => { d with dom_hashes := pushNew d.dom_hashes h }
    | none => d
  let d := { d with elementor_data_ids := e.elementor_data_ids.foldl pushNew d.elementor_data_ids }
  let d := { d with common_class_names := e.common_class_names.foldl pushNew d.common_class_names }
  let d := if e.uses_tinybird then { d with tracking_scripts := pushNew d.tracking_scripts ("flock.js") } else d
  { p with deep_dna := d }

/-- ResearchMode.profileURL, with the scraper run represented by an oracle
    from URL to the normalized entry (`none` = the fingerprint reported an
    error): on success the entry's DNA is merged into the profile. -/
def profileURL (oracle : String → Option DnaEntry) (st : ResearchState) (url : String) :
    ResearchState × Option DnaEntry :=
  match oracle url with
  | none => (st, none)
  | some e => ({ st with profile := mergeDeepDNA st.profile e }, some e)

/-- The per-URL loop body of ResearchMode.profileSeedURLs over the new URLs:
    profile the URL (the returned list records every URL for which the
    scraper was run); on success push IP/subnet into the watchlist, append the
    fingerprint entry, push the URL and infrastructure into the profile, and
    record the URL in the processed ledger. -/
def seedLoop (oracle : String → Option DnaEntry) :
    ResearchState → List String → ResearchState × List String
  | st, [] => (st, [])
  | st, url :: rest =>
    let r1 := profileURL oracle st url
    match r1.2 with
    | none =>
      let r2 := seedLoop oracle r1.1 rest
      (r2.1, url :: r2.2)
    | some e =>
      let wl := r1.1.watchlist
      let wl := match e.ip with
        | some i => { wl with ips := pushNew wl.ips i }
        | none => wl
      let wl := match e.subnet with
        | some sn => { wl with subnets := pushNew wl.subnets sn }
        | none => wl
      let wl := { wl with fingerprints := wl.fingerprints ++ [e] }
      let pr := r1.1.profile
      let pr := { pr with seed_urls := pushNew pr.seed_urls url }
      let pr := match e.ip with
        | some i => { pr with infra_ips := pushNew pr.infra_ips i }
        | none => pr
      let pr := match e.subnet with
        | some sn => { pr with infra_subnets := pushNew pr.infra_subnets sn }
        | none => pr
      let st2 : ResearchState :=
        ⟨wl, pr, pushNew r1.1.researchedURLs url⟩
      let r2 := seedLoop oracle st2 rest
      (r2.1, url :: r2.2)

/-- ResearchMode.profileSeedURLs (research_mode.js lines 233-307): filter out
    URLs already in the processed ledger; if none remain, return immediately
    without touching any state; otherwise run the per-URL loop. The second
    component is the list of URLs for which the scraper was actually run. -/
def profileSeedURLs (oracle : String → Option DnaEntry) (st : ResearchState)
    (urls : List String) : ResearchState × List String :=
  let newURLs := urls.filter (fun u => !(st.researchedURLs.contains u))
  if newURLs.isEmpty then (st, [])
  else seedLoop oracle st newURLs

/-- Concrete listener configuration exercising the IP branch: one watched IP
    and a DNS oracle that resolves every domain to it. -/
def c1Config : ListenerConfig :=
  ⟨some ⟨["9.9.9.9"], []⟩, none, [], fun _ => some ("9.9.9.9")⟩

/-- Concrete listener configuration with a profile whose only SSL issuer is
    "Acme CA", one naming pattern matching exactly "match.fun", and failing
    DNS. -/
def c2Config : ListenerConfig :=
  ⟨none, some ⟨⟨[("Acme CA")], [], []⟩⟩, [fun d => d == ("match.fun")], fun _ => none⟩

/-- Concrete certificate event issued by "Acme CA". -/
def c2Cert : CertData :=
  ⟨some ⟨none, [], [], some ⟨some ("Acme CA")⟩, none, none⟩⟩

/-- Concrete listener configuration whose watchlist holds the IP
    159.198.65.253 and the subnet 159.198.65.0/24, with DNS resolving every
    domain to 159.198.65.100 — inside the subnet but not the exact IP. -/
def c4Config : ListenerConfig :=
  ⟨some ⟨["159.198.65.253"], [("159.198.65.0/24")]⟩, none, [], fun _ => some ("159.198.65.100")⟩

/-- Trivial listener configuration: nothing loaded, no patterns, failing
    DNS. -/
def c6Config : ListenerConfig := ⟨none, none, [], fun _ => none⟩

/-- Concrete research state whose processed-URL ledger already holds the one
    seed URL used by the idempotence witness. -/
def c7State : ResearchState :=
  ⟨⟨[], [], []⟩, ⟨[], [], [], ⟨[], [], [], [], [], [], []⟩⟩, [("https://thewhitecat.fun")]⟩

/-- Trivial listener configuration for the wildcard-filter witness. -/
def c9Config : ListenerConfig := ⟨none, none, [], fun _ => none⟩

/-- Concrete listener configuration for the alert-invariant witness: one
    watched IP, resolved for every domain. -/
def c10Config : ListenerConfig :=
  ⟨some ⟨["7.7.7.7"], []⟩, none, [], fun _ => some ("7.7.7.7")⟩

/-- Splitting a list with no dot yields the single chunk. -/
theorem splitDots_no_dot (l : List Char) (h : '.' ∉ l) : splitDots l = [l] := by
  induction l with
  | nil => rfl
  | cons c rest ih =>
    have hc : ¬ c = '.' := fun hc => h (hc ▸ List.mem_cons_self c rest)
    have hrest : '.' ∉ rest := fun hr => h (List.mem_cons_of_mem c hr)
    simp only [splitDots, if_neg hc, ih hrest]

/-- Splitting a list that starts with a dot-free chunk followed by a dot peels
    off that chunk. -/
theorem splitDots_append_dot (a rest : List Char) (h : '.' ∉ a) :
    splitDots (a ++ '.' :: rest) = a :: splitDots rest := by
  induction a with
  | nil => simp [splitDots]
  | cons c as ih =>
    have hc : ¬ c = '.' := fun hc => h (hc ▸ List.mem_cons_self c as)
    have has : '.' ∉ as := fun hr => h (List.mem_cons_of_mem c hr)
    simp only [List.cons_append, splitDots, if_neg hc, List.append_eq, ih has]

/-- Membership survives push-if-absent insertion. -/
theorem mem_pushNew (l : List String) (x y : String) (h : y ∈ l) : y ∈ pushNew l x := by
  unfold pushNew
  split
  · exact h
  · exact List.mem_append_left _ h

/-- `performDeepDNAMatch` returns nothing, an SSL-issuer hit, or a pattern
    hit — never anything else. -/
theorem performDeepDNAMatch_cases (cfg : ListenerConfig) (domain : String)
    (cert : CertData) :
    performDeepDNAMatch cfg domain cert = none
    ∨ performDeepDNAMatch cfg domain cert = some (.SSL_ISSUER_MATCH, .MEDIUM)
    ∨ performDeepDNAMatch cfg domain cert = some (.PATTERN_MATCH, .MEDIUM) := by
  unfold performDeepDNAMatch
  split
  · exact Or.inl rfl
  · split
    · split
      · exact Or.inr (Or.inl rfl)
      · split
        · exact Or.inr (Or.inr rfl)
        · exact Or.inl rfl
    · split
      · exact Or.inr (Or.inr rfl)
      · exact Or.inl rfl

/-- Every hit of `performDeepDNAMatch` has MEDIUM confidence and is an
    SSL-issuer or a pattern hit. -/
theorem performDeepDNAMatch_shape (cfg : ListenerConfig) (domain : String)
    (cert : CertData) (mt : MatchType) (conf : Confidence)
    (h : performDeepDNAMatch cfg domain cert = some (mt, conf)) :
    conf = .MEDIUM ∧ (mt = .SSL_ISSUER_MATCH ∨ mt = .PATTERN_MATCH) := by
  rcases performDeepDNAMatch_cases cfg domain cert with h0 | h0 | h0 <;> rw [h0] at h
  · simp at h
  · simp only [Option.some.injEq, Prod.mk.injEq] at h
    exact ⟨h.2.symm, Or.inl h.1.symm⟩
  · simp only [Option.some.injEq, Prod.mk.injEq] at h
    exact ⟨h.2.symm, Or.inr h.1.symm⟩

/-- Every alert emitted by `processDomain` names the processed domain and is
    either the CRITICAL IP-branch alert or a MEDIUM alert from the
    pattern-gated branch, the latter only when the domain was not yet in the
    seen-set. -/
theorem processDomain_alert_shape (cfg : ListenerConfig) (st : ListenerState)
    (cert : CertData) (d : String) (a : Alert)
    (ha : a ∈ (processDomain cfg st cert d).1) :
    a.domain = d
    ∧ ((a.matchType = .IP_MATCH ∧ a.confidence = .CRITICAL)
       ∨ (st.knownCabalDomains.contains d = false
          ∧ a.confidence = .MEDIUM
          ∧ (a.matchType = .SSL_ISSUER_MATCH ∨ a.matchType = .PATTERN_MATCH))) := by
  have hgatef : ∀ (b c : Bool), (b && !c) = true → c = false := by decide
  simp only [processDomain] at ha
  split at ha
  · simp at ha
  · split at ha
    · simp only [List.mem_singleton] at ha
      subst ha
      exact ⟨rfl, Or.inl ⟨rfl, rfl⟩⟩
    · split at ha
      · rename_i hgate
        split at ha
        · rename_i mt' conf' heq
          simp only [List.mem_singleton] at ha
          subst ha
          have hs := performDeepDNAMatch_shape cfg d cert mt' conf' heq
          exact ⟨rfl, Or.inr ⟨hgatef _ _ hgate, hs.1, hs.2⟩⟩
        · simp only [List.mem_singleton] at ha
          subst ha
          exact ⟨rfl, Or.inr ⟨hgatef _ _ hgate, rfl, Or.inr rfl⟩⟩
      · simp at ha

/-- Processing one domain never removes entries from the seen-set. -/
theorem processDomain_known_mono (cfg : ListenerConfig) (st : ListenerState)
    (cert : CertData) (d x : String) (hx : x ∈ st.knownCabalDomains) :
    x ∈ (processDomain cfg st cert d).2.2.knownCabalDomains := by
  simp only [processDomain]
  split
  · exact hx
  · split
    · exact mem_pushNew _ _ _ hx
    · split
      · split
        · exact mem_pushNew _ _ _ hx
        · exact mem_pushNew _ _ _ hx
      · exact hx

end DevDestroyer

namespace DevDestroyer

/-- C8: for every IPv4 address string of the form `x.y.z.w` — four
    dot-separated octets, each octet a nonempty run of digits — `extractSubnet`
    returns exactly the string `x.y.z.0/24`: the result is determined by the
    first three octets alone. -/
theorem extractSubnet_first_three_octets (o1 o2 o3 o4 : List Char)
    (h1 : ∀ c ∈ o1, c.isDigit) (h2 : ∀ c ∈ o2, c.isDigit)
    (h3 : ∀ c ∈ o3, c.isDigit) (h4 : ∀ c ∈ o4, c.isDigit) :
    extractSubnet (String.mk (o1 ++ '.' :: (o2 ++ '.' :: (o3 ++ '.' :: o4))))
      = some (String.mk (o1 ++ '.' :: (o2 ++ '.' :: (o3 ++ subnetSuffix)))) := by
  have nd : ∀ (l : List Char), (∀ c ∈ l, c.isDigit) → '.' ∉ l := by
    intro l hl hmem
    have := hl '.' hmem
    simp [Char.isDigit] at this
  have e1 := splitDots_append_dot o1 (o2 ++ '.' :: (o3 ++ '.' :: o4)) (nd o1 h1)
  have e2 := splitDots_append_dot o2 (o3 ++ '.' :: o4) (nd o2 h2)
  have e3 := splitDots_append_dot o3 o4 (nd o3 h3)
  have e4 := splitDots_no_dot o4 (nd o4 h4)
  simp only [extractSubnet, extractSubnetChars, String.toList]
  simp only [e1, e2, e3, e4]
  rfl

/-- Witness for C8 at the concrete address 159.198.65.253. -/
theorem extractSubnet_first_three_octets_witness :
    extractSubnet (String.mk (['1','5','9'] ++ '.' :: (['1','9','8'] ++ '.' :: (['6','5'] ++ '.' :: ['2','5','3']))))
      = some (String.mk (['1','5','9'] ++ '.' :: (['1','9','8'] ++ '.' :: (['6','5'] ++ subnetSuffix)))) :=
  extractSubnet_first_three_octets ['1','5','9'] ['1','9','8'] ['6','5'] ['2','5','3']
    (by decide) (by decide) (by decide) (by decide)

/-- C9: a domain that is the empty string or begins with "*." is skipped by
    `processDomains` before any classification step — removing it from the
    head of the domain list changes nothing: no DNS resolution is attempted
    for it, no alert is emitted, and the state (seen-set included) is exactly
    the state produced by the remaining domains. -/
theorem wildcard_empty_skipped (cfg : ListenerConfig) (st : ListenerState)
    (cert : CertData) (d : String) (rest : List String)
    (h : d = ("") ∨ strStartsWith d ("*.") = true) :
    processDomains cfg cert st (d :: rest) = processDomains cfg cert st rest := by
  have hcond : (strStartsWith d ("*.") || d == ("")) = true := by
    rcases h with h | h
    · subst h
      simp
    · simp [h]
  simp [processDomains, processDomain, hcond]

/-- Witness for C9: dropping the wildcard domain `*.evil.fun` from the head of
    a concrete domain list leaves processing unchanged. -/
theorem wildcard_empty_skipped_witness :
    processDomains c9Config ⟨none⟩ ⟨[], 0⟩ [("*.evil.fun"), ("ok.example")]
      = processDomains c9Config ⟨none⟩ ⟨[], 0⟩ [("ok.example")] :=
  wildcard_empty_skipped c9Config ⟨[], 0⟩ ⟨none⟩ ("*.evil.fun") [("ok.example")]
    (Or.inr (by decide))

/-- C10: every alert emitted by `processDomains` carries one of the three
    match types IP_MATCH, SSL_ISSUER_MATCH, PATTERN_MATCH, and its confidence
    is CRITICAL exactly when its match type is IP_MATCH (MEDIUM in the other
    two cases). -/
theorem alert_type_confidence_invariant (cfg : ListenerConfig) (cert : CertData)
    (st : ListenerState) (domains : List String) (a : Alert)
    (ha : a ∈ (processDomains cfg cert st domains).1) :
    (a.matchType = .IP_MATCH ∨ a.matchType = .SSL_ISSUER_MATCH ∨ a.matchType = .PATTERN_MATCH)
    ∧ (a.confidence = .CRITICAL ↔ a.matchType = .IP_MATCH) := by
  induction domains generalizing st with
  | nil => simp [processDomains] at ha
  | cons d rest ih =>
    simp only [processDomains] at ha
    rw [List.mem_append] at ha
    rcases ha with ha | ha
    · have hs := processDomain_alert_shape cfg st cert d a ha
      rcases hs.2 with ⟨hmt, hconf⟩ | ⟨_, hconf, hmt⟩
      · exact ⟨Or.inl hmt, by rw [hconf, hmt]; exact ⟨fun _ => rfl, fun _ => rfl⟩⟩
      · refine ⟨?_, ?_⟩
        · rcases hmt with h | h
          · exact Or.inr (Or.inl h)
          · exact Or.inr (Or.inr h)
        · rw [hconf]
          constructor
          · intro hc
            exact absurd hc (by decide)
          · intro hip
            rcases hmt with h | h
            · exact absurd (h.symm.trans hip) (by decide)
            · exact absurd (h.symm.trans hip) (by decide)
    · exact ih _ ha

/-- Witness for C10: the concrete IP_MATCH alert produced by a run of
    `processDomains` satisfies the invariant. -/
theorem alert_type_confidence_invariant_witness :
    ((mkAlert ("a.fun") (some ("7.7.7.7")) ⟨none⟩ .IP_MATCH .CRITICAL).matchType = .IP_MATCH
      ∨ (mkAlert ("a.fun") (some ("7.7.7.7")) ⟨none⟩ .IP_MATCH .CRITICAL).matchType = .SSL_ISSUER_MATCH
      ∨ (mkAlert ("a.fun") (some ("7.7.7.7")) ⟨none⟩ .IP_MATCH .CRITICAL).matchType = .PATTERN_MATCH)
    ∧ ((mkAlert ("a.fun") (some ("7.7.7.7")) ⟨none⟩ .IP_MATCH .CRITICAL).confidence = .CRITICAL
        ↔ (mkAlert ("a.fun") (some ("7.7.7.7")) ⟨none⟩ .IP_MATCH .CRITICAL).matchType = .IP_MATCH) :=
  alert_type_confidence_invariant c10Config ⟨none⟩ ⟨[], 0⟩ [("a.fun")]
    (mkAlert ("a.fun") (some ("7.7.7.7")) ⟨none⟩ .IP_MATCH .CRITICAL) (by decide)

/-- C1 counterexample: the domain "a.fun" is already in the seen-set, yet
    re-observing it produces a second (IP_MATCH) alert — the seen-set does not
    block re-alerting for IP_MATCH, refuting the claim at this input. -/
theorem seen_set_realert_cex :
    ("a.fun") ∈ (⟨[("a.fun")], 1⟩ : ListenerState).knownCabalDomains
    ∧ (processDomains c1Config ⟨none⟩ ⟨[("a.fun")], 1⟩ [("a.fun")]).1
        = [mkAlert ("a.fun") (some ("9.9.9.9")) ⟨none⟩ .IP_MATCH .CRITICAL] := by
  exact ⟨by decide, by decide⟩

/-- C1 (amended): once a domain is in the seen-set, a later call to
    `processDomains` can re-alert it only with matchType IP_MATCH — the
    seen-set blocks SSL_ISSUER_MATCH and PATTERN_MATCH re-alerts, but the
    IP branch does not consult the seen-set. -/
theorem seen_set_blocks_non_ip (cfg : ListenerConfig) (cert : CertData)
    (st : ListenerState) (domains : List String) (d : String) (a : Alert)
    (hd : d ∈ st.knownCabalDomains)
    (ha : a ∈ (processDomains cfg cert st domains).1)
    (hda : a.domain = d) :
    a.matchType = .IP_MATCH := by
  induction domains generalizing st with
  | nil => simp [processDomains] at ha
  | cons d0 rest ih =>
    simp only [processDomains] at ha
    rw [List.mem_append] at ha
    rcases ha with ha | ha
    · have hs := processDomain_alert_shape cfg st cert d0 a ha
      rcases hs.2 with ⟨hmt, _⟩ | ⟨hknown, _, _⟩
      · exact hmt
      · have hd0 : d0 = d := by rw [← hs.1, hda]
        have hc : st.knownCabalDomains.contains d0 = true := by
          rw [hd0]
          simpa using hd
        rw [hknown] at hc
        cases hc
    · exact ih _ (processDomain_known_mono cfg st cert d0 d hd) ha

/-- Witness for C1's amended theorem at the counterexample scenario: the
    re-alert for the already-seen domain "a.fun" indeed has matchType
    IP_MATCH. -/
theorem seen_set_blocks_non_ip_witness :
    (mkAlert ("a.fun") (some ("9.9.9.9")) (⟨none⟩ : CertData) .IP_MATCH .CRITICAL).matchType
      = .IP_MATCH :=
  seen_set_blocks_non_ip c1Config ⟨none⟩ ⟨[("a.fun")], 1⟩ [("a.fun")] ("a.fun")
    (mkAlert ("a.fun") (some ("9.9.9.9")) ⟨none⟩ .IP_MATCH .CRITICAL)
    (by decide) (by decide) rfl

/-- C4: a certificate event whose domain passes the filter and resolves to an
    IP that is not among the watchlist's exact IPs but whose first three
    octets rebuild a subnet string present in the watchlist's subnets is
    classified as an IP_MATCH alert with confidence CRITICAL — subnet
    membership alone suffices. -/
theorem subnet_match_critical (cfg : ListenerConfig) (st : ListenerState)
    (cert : CertData) (d ip : String) (w : Watchlist) (a b c e : List Char)
    (hfilter : (strStartsWith d ("*.") || d == ("")) = false)
    (hres : cfg.resolve d = some ip)
    (hw : cfg.watchlist = some w)
    (hnotip : w.ips.contains ip = false)
    (hsplit : splitDots ip.toList = [a, b, c, e])
    (hsub : w.subnets.contains (String.mk (a ++ '.' :: (b ++ '.' :: (c ++ subnetSuffix)))) = true) :
    (processDomains cfg cert st [d]).1
      = [mkAlert d (some ip) cert .IP_MATCH .CRITICAL] := by
  have hipw : isIPWatched cfg ip = true := by
    unfold isIPWatched
    rw [hw]
    simp only [hnotip, hsplit, Bool.false_eq_true, if_false]
    exact hsub
  simp [processDomains, processDomain, hfilter, hres, hipw]

/-- Witness for C4 at the concrete scenario of the spec: `whitecat.fun`
    resolves to 159.198.65.100, not a watched exact IP, but inside the watched
    subnet 159.198.65.0/24 — yielding the IP_MATCH/CRITICAL alert. -/
theorem subnet_match_critical_witness :
    (processDomains c4Config ⟨none⟩ ⟨[], 0⟩ [("whitecat.fun")]).1
      = [mkAlert ("whitecat.fun") (some ("159.198.65.100")) ⟨none⟩ .IP_MATCH .CRITICAL] :=
  subnet_match_critical c4Config ⟨[], 0⟩ ⟨none⟩ ("whitecat.fun") ("159.198.65.100")
    ⟨["159.198.65.253"], [("159.198.65.0/24")]⟩
    ['1','5','9'] ['1','9','8'] ['6','5'] ['1','0','0']
    (by decide) rfl rfl (by decide) (by decide) (by decide)

/-- C2 counterexample: a certificate event issued by "Acme CA", an issuer in
    the profile's SSL issuers, observed for the domain `example.com` which
    matches no naming pattern and no watched IP — the claim demands an
    SSL_ISSUER_MATCH alert, but `processDomains` emits no alert at all
    because the SSL-issuer check is gated behind a pattern match. -/
theorem ssl_issuer_requires_pattern_cex :
    issuerOf c2Cert = some ("Acme CA")
    ∧ (match c2Config.profile with
        | some p => p.deep_dna.ssl_issuers.contains ("Acme CA")
        | none => false) = true
    ∧ (processDomains c2Config c2Cert ⟨[], 0⟩ [("example.com")]).1 = [] :=
  ⟨rfl, by decide, by decide⟩

/-- C2 (amended): SSL-issuer classification fires only for domains that also
    match a configured naming pattern and are not yet in the seen-set: for
    every such domain that passes the filter and does not match by IP, when
    the certificate's issuer organization is a member of the profile's SSL
    issuers, classification yields exactly one SSL_ISSUER_MATCH alert with
    confidence MEDIUM (the issuer check still precedes the pattern
    classification within that branch). -/
theorem ssl_issuer_match_gated (cfg : ListenerConfig) (st : ListenerState)
    (cert : CertData) (d o : String) (p : Profile)
    (hfilter : (strStartsWith d ("*.") || d == ("")) = false)
    (hpat : cfg.patterns.any (fun f => f d) = true)
    (hknown : st.knownCabalDomains.contains d = false)
    (hip : (match cfg.resolve d with
            | some ip => isIPWatched cfg ip
            | none => false) = false)
    (hprof : cfg.profile = some p)
    (hiss : issuerOf cert = some o)
    (hmem : p.deep_dna.ssl_issuers.contains o = true) :
    (processDomains cfg cert st [d]).1
      = [mkAlert d (cfg.resolve d) cert .SSL_ISSUER_MATCH .MEDIUM] := by
  have hdeep : performDeepDNAMatch cfg d cert = some (.SSL_ISSUER_MATCH, .MEDIUM) := by
    unfold performDeepDNAMatch
    rw [hprof, hiss]
    have hm : o ∈ p.deep_dna.ssl_issuers := by simpa using hmem
    simp [hm]
  have hk : d ∉ st.knownCabalDomains := by simpa using hknown
  simp [processDomains, processDomain, hfilter, hpat, hknown, hip, hdeep, hk]

/-- Witness for C2's amended theorem: the pattern-matching domain `match.fun`
    with issuer "Acme CA" yields the SSL_ISSUER_MATCH/MEDIUM alert. -/
theorem ssl_issuer_match_gated_witness :
    (processDomains c2Config c2Cert ⟨[], 0⟩ [("match.fun")]).1
      = [mkAlert ("match.fun") (c2Config.resolve ("match.fun")) c2Cert .SSL_ISSUER_MATCH .MEDIUM] :=
  ssl_issuer_match_gated c2Config ⟨[], 0⟩ c2Cert ("match.fun") ("Acme CA")
    ⟨⟨[("Acme CA")], [], []⟩⟩
    (by decide) (by decide) (by decide) (by decide) rfl (by decide) (by decide)

/-- Doubling then capping at 30000 commutes with an earlier cap. -/
theorem min_double_cap (a : Nat) : min (min a 30000 * 2) 30000 = min (a * 2) 30000 := by
  omega

/-- `connRun` distributes over trace concatenation. -/
theorem connRun_append (m : Nat) (acc : ConnState × List Nat)
    (es1 es2 : List ConnEvent) :
    connRun m acc (es1 ++ es2) = connRun m (connRun m acc es1) es2 := by
  induction es1 generalizing acc with
  | nil => rfl
  | cons e es ih =>
    rcases acc with ⟨s, ds⟩
    simp only [List.cons_append, connRun]
    exact ih _

/-- Shape of the lifecycle after k consecutive connection failures from the
    initial state: the retry counter advances up to `maxRetries`, the pending
    delay is 1000·2^(number of consumed failures) capped at 30000, and the
    scheduled delays so far are 1000·2^i capped at 30000 for each consumed
    failure i — at most `maxRetries` of them. -/
theorem connRun_replicate_close (m k : Nat) :
    connRun m (initConnState, []) (List.replicate k .closeEvt)
      = (⟨false, k == 0, min k m, min (1000 * 2 ^ min k m) 30000⟩,
         (List.range (min k m)).map (fun i => min (1000 * 2 ^ i) 30000)) := by
  induction k with
  | zero =>
    simp [connRun, initConnState]
  | succ k ih =>
    rw [List.replicate_succ' k _, connRun_append, ih]
    by_cases hk : k < m
    · have h1 : min k m = k := Nat.min_eq_left (Nat.le_of_lt hk)
      have h2 : min (k + 1) m = k + 1 := Nat.min_eq_left hk
      have h3 : min (min (1000 * 2 ^ k) 30000 * 2) 30000 = min (1000 * 2 ^ (k + 1)) 30000 := by
        rw [min_double_cap]
        congr 1
        rw [pow_succ, ← Nat.mul_assoc]
      simp only [connRun, connStep, h1, if_pos hk, h2, h3, Option.toList,
        List.range_succ, List.map_append, List.map_cons, List.map_nil]
      rfl
    · have h1 : min k m = m := Nat.min_eq_right (Nat.le_of_not_lt hk)
      have h2 : min (k + 1) m = m := Nat.min_eq_right (Nat.le_trans (Nat.le_of_not_lt hk) (Nat.le_succ k))
      have hm : ¬ m < m := Nat.lt_irrefl m
      simp only [connRun, connStep, h1, if_neg hm, h2, Option.toList, List.append_nil]
      rfl

/-- C3 counterexample: with maxRetries = 5, the delay scheduled after the 1st
    consecutive connection failure is 1000 ms, while the claim's formula
    min(1s·2^N, 30s) demands 2000 ms at N = 1 — the claimed backoff formula is
    off by one. -/
theorem connect_backoff_cex :
    (connRun 5 (initConnState, []) (List.replicate 1 .closeEvt)).2 = [1000]
    ∧ min (1000 * 2 ^ 1) 30000 = 2000
    ∧ (1000 : Nat) ≠ 2000 :=
  ⟨rfl, by decide, by decide⟩

/-- C3 (amended): in `connect(maxRetries)`, the delay before the retry that
    follows the N-th consecutive connection failure (1 ≤ N ≤ maxRetries) is
    min(1s·2^(N-1), 30s); a successful `open` transition resets the retry
    counter to 0 and the delay to 1s; and across M consecutive failures
    exactly min(M, maxRetries) retries are scheduled — so the
    (maxRetries+1)-th consecutive failure (not the maxRetries-th) is the
    first after which no further attempt is scheduled. -/
theorem connect_backoff_behaviour (maxR N M : Nat) (s : ConnState)
    (h1 : 1 ≤ N) (h2 : N ≤ maxR) :
    (connRun maxR (initConnState, []) (List.replicate N .closeEvt)).2.getLast?
        = some (min (1000 * 2 ^ (N - 1)) 30000)
    ∧ (connStep maxR s .openEvt).1.retryCount = 0
    ∧ (connStep maxR s .openEvt).1.retryDelay = 1000
    ∧ (connRun maxR (initConnState, []) (List.replicate M .closeEvt)).2.length = min M maxR := by
  refine ⟨?_, rfl, rfl, ?_⟩
  · rw [connRun_replicate_close, Nat.min_eq_left h2]
    obtain ⟨N', rfl⟩ : ∃ N', N = N' + 1 := ⟨N - 1, (Nat.succ_pred_eq_of_pos h1).symm⟩
    rw [List.range_succ, List.map_append]
    simp
  · rw [connRun_replicate_close]
    simp

/-- Witness for C3's amended theorem at maxRetries = 5: the first retry comes
    after min(1000·2^0, 30000) = 1000 ms, `open` resets a scrambled state, and
    7 consecutive failures schedule only min(7,5) = 5 retries. -/
theorem connect_backoff_behaviour_witness :
    (connRun 5 (initConnState, []) (List.replicate 1 .closeEvt)).2.getLast?
        = some (min (1000 * 2 ^ (1 - 1)) 30000)
    ∧ (connStep 5 (⟨true, false, 4, 16000⟩ : ConnState) .openEvt).1.retryCount = 0
    ∧ (connStep 5 (⟨true, false, 4, 16000⟩ : ConnState) .openEvt).1.retryDelay = 1000
    ∧ (connRun 5 (initConnState, []) (List.replicate 7 .closeEvt)).2.length = min 7 5 :=
  connect_backoff_behaviour 5 1 7 ⟨true, false, 4, 16000⟩ (by decide) (by decide)

/-- C5: `fingerprintSite` tries the three extraction layers in the fixed order
    tier 1, tier 2, tier 3 and uses the first success: when tier 1 succeeds
    only layer 1 is invoked and the result carries tier 1's extracted_via tag;
    when tiers 1 and 2 fail and tier 3 succeeds the result's extracted_via is
    PLAYWRIGHT_LOCAL; when all three fail the result is the degraded
    fingerprint — dom_hash null, CSS/script and marker lists empty,
    extracted_via DNS_SSL_ONLY — with only the network-level IP and SSL facts
    populated. -/
theorem fingerprint_tier_cascade (url host ip : String) (ssl : Option SSLInfo) :
    (∀ (r : TierResult) (t2 t3 : Option TierResult),
        (fingerprintSite url host ip ssl (some r) t2 t3).2 = [1]
        ∧ (fingerprintSite url host ip ssl (some r) t2 t3).1.extracted_via = r.extracted_via)
    ∧ (∀ p : TierPayload,
        (fingerprintSite url host ip ssl none none (tier3Outcome (some p))).1.extracted_via
          = ("PLAYWRIGHT_LOCAL"))
    ∧ (fingerprintSite url host ip ssl none none none).1
        = { url := url, ssl := ssl, ip := ip, domain := host,
            dom_hash := none, css_vars := [], elementor_data_ids := [],
            common_class_names := [], script_hashes := [],
            uses_wp_uploads := false, uses_tinybird := false,
            extracted_via := ("DNS_SSL_ONLY") } :=
  ⟨fun _ _ _ => ⟨rfl, rfl⟩, fun _ => rfl, rfl⟩

/-- C6 counterexample: a heartbeat-type stream message arriving while the
    liveness flag is down emits no alert, but it does not reset the liveness
    flag either — `isAlive` stays false, so the stall check would still treat
    the connection as dead, refuting the liveness-reset part of the claim. -/
theorem heartbeat_liveness_cex :
    (handleCertificateMessage c6Config ⟨0, ⟨[], 0⟩, false⟩ .heartbeat).2.1 = []
    ∧ (handleCertificateMessage c6Config ⟨0, ⟨[], 0⟩, false⟩ .heartbeat).1.isAlive = false :=
  ⟨rfl, rfl⟩

/-- C6 (amended): a heartbeat-type stream message emits no alert, attempts
    no domain classification (no DNS resolution), and changes nothing except
    the message counter — in particular it leaves the liveness flag exactly
    as it was; the liveness flag is reset only by the transport-level pong
    handler. -/
theorem heartbeat_message_effect (cfg : ListenerConfig) (s : FullState) :
    handleCertificateMessage cfg s .heartbeat
        = ({ s with messageCount := s.messageCount + 1 }, [], [])
    ∧ (handleCertificateMessage cfg s .heartbeat).1.isAlive = s.isAlive
    ∧ (handlePong s).isAlive = true :=
  ⟨rfl, rfl, rfl⟩

/-- C7: re-running `profileSeedURLs` on URLs that are all already in the
    processed-URL ledger is a no-op: the watchlist, the profile and the ledger
    are unchanged and the scraper is run on no URL at all. -/
theorem profileSeedURLs_idempotent (oracle : String → Option DnaEntry)
    (st : ResearchState) (urls : List String)
    (h : ∀ u ∈ urls, st.researchedURLs.contains u = true) :
    profileSeedURLs oracle st urls = (st, []) := by
  unfold profileSeedURLs
  have hf : urls.filter (fun u => !(st.researchedURLs.contains u)) = [] := by
    refine List.filter_eq_nil_iff.mpr ?_
    intro u hu
    simpa using h u hu
  rw [hf]
  rfl

/-- Witness for C7: re-running on the single already-processed seed URL
    changes nothing and fetches nothing. -/
theorem profileSeedURLs_idempotent_witness :
    profileSeedURLs (fun _ => none) c7State [("https://thewhitecat.fun")] = (c7State, []) :=
  profileSeedURLs_idempotent (fun _ => none) c7State [("https://thewhitecat.fun")] (by decide)

end DevDestroyer
